import Mathlib

/-!
Verification of the connection-pool / transactional-query manager of
`src/Nodejs/1. Singleton Pattern/databaseManager.js`, as a shallow embedding.

Conventions of the embedding:
* The JS `Map` keyed by connection id is a `List Connection` in insertion
  order (ids are unique, updates replace the first entry with the given id).
* `new Date()` / `Date.now()` are modelled by a logical clock `clock : Nat`
  carried in the state; every primitive that records a date reads the clock
  and advances it.
* The random simulators (`#simulateConnection`, `#executeQuery`) are
  modelled by boolean oracles supplied as parameters: `connectOk` gives the
  outcome of a connection attempt, `attemptOk n` the outcome of the n-th
  query attempt.
* Async suspension is not observable to the claims except for the
  unbounded polling loop in `#getConnection`; that loop is represented by
  the `wait` outcome plus the fuel-indexed `pollAcquire` (one unit of fuel
  per 100 ms re-check, with the pool unchanged between checks, which is
  what happens when no other caller releases).
* Errors are distinguished by their message in the source; here they form
  the inductive `DBError`.  Note the source has no NestedTransaction,
  PoolClosed or AcquireTimeout error path at all.
-/

/-- Connection states of the manager (`#CONNECTION_STATES`). -/
inductive ConnState
  | disconnected
  | connecting
  | connected
  | error
deriving DecidableEq, Repr

/-- A pooled connection object as created by `#createConnection`
(`transactionActive` is absent — i.e. falsy — until `#beginTransaction`
first sets it; we represent that as `false`). -/
structure Connection where
  id : Nat
  createdAt : Nat
  lastUsed : Nat
  inUse : Bool
  transactionActive : Bool
deriving DecidableEq, Repr

/-- The `#stats` record of the manager. -/
structure Stats where
  totalQueries : Nat
  successfulQueries : Nat
  failedQueries : Nat
  activeConnections : Nat
  connectionErrors : Nat
deriving DecidableEq, Repr

/-- All-zero statistics, as set up by the constructor. -/
def Stats.init : Stats :=
  { totalQueries := 0, successfulQueries := 0, failedQueries := 0,
    activeConnections := 0, connectionErrors := 0 }

/-- The mutable private state of the `DatabaseManager` singleton that the
claims depend on.  `nextId` feeds the unique connection ids, `clock` the
logical time (see module header). -/
structure DBState where
  connectionState : ConnState
  connectionPool : List Connection
  maxConnections : Nat
  retryAttempts : Nat
  retryDelay : Nat
  stats : Stats
  nextId : Nat
  clock : Nat
deriving DecidableEq, Repr

/-- A freshly constructed manager (constructor + `configure`): disconnected,
empty pool, zero statistics. -/
def newDBState (maxConnections retryAttempts retryDelay : Nat) : DBState :=
  { connectionState := .disconnected, connectionPool := [],
    maxConnections := maxConnections, retryAttempts := retryAttempts,
    retryDelay := retryDelay, stats := Stats.init, nextId := 0, clock := 0 }

/-- Errors raised by the manager, one constructor per distinct `Error`
message in the source.  `undefinedThrown` models `throw lastError` when the
retry loop ran zero attempts (`lastError` still `undefined`). -/
inductive DBError
  | invalidQuery
  | connectionTimeout
  | queryFailed
  | undefinedThrown
deriving DecidableEq, Repr

/-- First connection with `inUse = false`, in `Map` iteration (= insertion)
order; this is the scan at the top of `#getConnection`. -/
def findAvailable : List Connection → Option Nat
  | [] => none
  | c :: cs => if c.inUse then findAvailable cs else some c.id

/-- Update the (unique) entry with the given id, in place — the JS code
mutates the connection object held by the `Map`. -/
def setConn : List Connection → Nat → (Connection → Connection) → List Connection
  | [], _, _ => []
  | c :: cs, cid, f => if c.id = cid then f c :: cs else c :: setConn cs cid f

/-- `Map.has` on the pool. -/
def poolHas : List Connection → Nat → Bool
  | [], _ => false
  | c :: cs, cid => if c.id = cid then true else poolHas cs cid

/-- `Map.get`-like lookup on the pool (first — and, with unique ids, only —
entry with the given id). -/
def findConn : List Connection → Nat → Option Connection
  | [], _ => none
  | c :: cs, cid => if c.id = cid then some c else findConn cs cid

/-- `#createConnection`: a fresh connection, not in use, with
`createdAt = lastUsed =` the current date. -/
def createConnection (s : DBState) : Connection × DBState :=
  ({ id := s.nextId, createdAt := s.clock, lastUsed := s.clock,
     inUse := false, transactionActive := false },
   { s with nextId := s.nextId + 1, clock := s.clock + 1 })

/-- Append `n` freshly created connections to the pool (the loop body of
the pool initialization). -/
def addFreshConnections : Nat → DBState → DBState
  | 0, s => s
  | n + 1, s =>
    let p := createConnection s
    addFreshConnections n
      { p.2 with connectionPool := p.2.connectionPool ++ [p.1] }

/-- Embeds `#initializeConnectionPool`: creates `min 3 maxConnections`
connections, adds them to the pool, then sets
`stats.activeConnections := pool.size`.  Note it does NOT check how many
connections the pool already holds. -/
def initPool (s : DBState) : DBState :=
  let s1 := addFreshConnections (min 3 s.maxConnections) s
  { s1 with stats := { s1.stats with activeConnections := s1.connectionPool.length } }

/-- `connect()`: early-returns when connected or connecting; otherwise
simulates the connection (oracle `connectOk`), on success runs the pool
initialization and becomes `connected`, on failure becomes `error`, bumps
`connectionErrors` and raises `Connection timeout`. -/
def connect (connectOk : Bool) (s : DBState) : Except DBError Unit × DBState :=
  match s.connectionState with
  | .connected => (.ok (), s)
  | .connecting => (.ok (), s)
  | _ =>
    let s1 : DBState := { s with connectionState := .connecting }
    if connectOk then
      let s2 := initPool s1
      (.ok (), { s2 with connectionState := .connected })
    else
      (.error .connectionTimeout,
       { s1 with connectionState := .error,
                 stats := { s1.stats with connectionErrors := s1.stats.connectionErrors + 1 } })

/-- `disconnect()`: no-op when already disconnected; otherwise sets the
state to disconnected, closes and removes every pooled connection and
zeroes `activeConnections`. -/
def disconnect (s : DBState) : DBState :=
  if s.connectionState = .disconnected then s
  else
    { s with connectionState := .disconnected, connectionPool := [],
             stats := { s.stats with activeConnections := 0 } }

/-- Result of `#getConnection`: either a connection id together with the
updated state, or entry into the unbounded 100 ms polling loop. -/
inductive AcquireOutcome
  | acquired (cid : Nat) (s : DBState)
  | wait (s : DBState)
deriving DecidableEq, Repr

/-- Embeds `#getConnection`: first free connection is marked in use with
`lastUsed` refreshed; else, if the pool is below `maxConnections`, a new
connection is created in-use and appended (updating `activeConnections`);
else the caller enters the polling loop (`wait`). -/
def getConnection (s : DBState) : AcquireOutcome :=
  match findAvailable s.connectionPool with
  | some cid =>
    .acquired cid
      { s with
        connectionPool :=
          setConn s.connectionPool cid
            (fun c => { c with inUse := true, lastUsed := s.clock }),
        clock := s.clock + 1 }
  | none =>
    if s.connectionPool.length < s.maxConnections then
      let p := createConnection s
      let pool1 := p.2.connectionPool ++ [{ p.1 with inUse := true }]
      .acquired p.1.id
        { p.2 with connectionPool := pool1,
                   stats := { p.2.stats with activeConnections := pool1.length } }
    else
      .wait s

/-- The `checkConnection` polling loop of `#getConnection`, with one unit
of fuel per 100 ms re-check and no interleaved release (the pool does not
change between checks).  Returns `none` when the fuel runs out without a
connection having become free — the source itself never times out. -/
def pollAcquire (s : DBState) : Nat → Option Nat
  | 0 => none
  | fuel + 1 =>
    match findAvailable s.connectionPool with
    | some cid => some cid
    | none => pollAcquire s fuel

/-- The field update `#releaseConnection` performs on a tracked handle:
`inUse = false`, `lastUsed = new Date()`. -/
def releaseUpd (t : Nat) (c : Connection) : Connection :=
  { c with inUse := false, lastUsed := t }

/-- `#releaseConnection`: when the pool still tracks the handle's id, clear
`inUse` and refresh `lastUsed`; otherwise do nothing. -/
def releaseConnection (cid : Nat) (s : DBState) : DBState :=
  if poolHas s.connectionPool cid then
    { s with
      connectionPool := setConn s.connectionPool cid (releaseUpd s.clock),
      clock := s.clock + 1 }
  else s

/-- Idle entries of a raw pool list. -/
def idleCountL : List Connection → Nat
  | [] => 0
  | c :: cs => (if c.inUse then 0 else 1) + idleCountL cs

/-- Number of pooled connections currently idle. -/
def idleCount (s : DBState) : Nat :=
  idleCountL s.connectionPool

/-- The freshly created, immediately in-use connection appended by the
create branch of `#getConnection`. -/
def freshInUse (s : DBState) : Connection :=
  { id := s.nextId, createdAt := s.clock, lastUsed := s.clock,
    inUse := true, transactionActive := false }

/-- The fabricated result `#executeQuery` resolves with (fixed two rows,
echoing the query text). -/
structure QueryResult where
  rowCount : Nat
  queryText : String
deriving DecidableEq, Repr

/-- The value a successful simulated query resolves with. -/
def simulatedResult (q : String) : QueryResult :=
  { rowCount := 2, queryText := q }

/-- `#executeQuery` under the per-attempt oracle: succeed with the
simulated rows or reject with `Query execution failed`. -/
def executeQuery (attemptOk : Nat → Bool) (q : String) (attempt : Nat) :
    Except DBError QueryResult :=
  if attemptOk attempt then .ok (simulatedResult q) else .error .queryFailed

/-- The body of the `for` loop of `#executeQueryWithRetry`, generic in the
outcome of each attempt.  `attempt` is the 1-based attempt counter,
`remaining` the number of attempts still allowed (`maxAttempts - attempt + 1`
at entry), and the accumulated `Option E` is `lastError`.  Besides the
result it returns the list of back-off delays actually performed — the
source sleeps `retryDelay * attempt` only when `attempt < maxAttempts`. -/
def retryLoop {E A : Type} (outcomes : Nat → Except E A) (d : Nat) :
    Nat → Nat → Option E → Except (Option E) A × List Nat
  | _, 0, lastErr => (.error lastErr, [])
  | attempt, remaining + 1, _ =>
    match outcomes attempt with
    | .ok a => (.ok a, [])
    | .error e =>
      if remaining = 0 then (.error (some e), [])
      else
        let r := retryLoop outcomes d (attempt + 1) remaining (some e)
        (r.1, d * attempt :: r.2)

/-- `#executeQueryWithRetry`: run the attempts from attempt 1 with
`lastError` initially `undefined` (`none`). -/
def executeQueryWithRetry {E A : Type} (outcomes : Nat → Except E A)
    (maxAttempts d : Nat) : Except (Option E) A × List Nat :=
  retryLoop outcomes d 1 maxAttempts none

/-- The `query` argument as a JS value: absent, a string, or some
non-string value.  (`null`, numbers, objects all fail the
`typeof query !== 'string'` test identically.) -/
inductive QueryArg
  | missing
  | strArg (s : String)
  | nonString
deriving DecidableEq, Repr

/-- The guard `!query || typeof query !== 'string'` accepts exactly the
non-empty strings (`!query` is true for the empty string as well). -/
def validQueryArg : QueryArg → Bool
  | .strArg s => !s.isEmpty
  | _ => false

/-- The string carried by a (valid) query argument. -/
def queryText : QueryArg → String
  | .strArg s => s
  | _ => ""

/-- Outcome of `query` / `transaction`: a resolved value, a raised error,
or permanent suspension in the acquire polling loop. -/
inductive QueryOutcome (α : Type)
  | ok (a : α)
  | err (e : DBError)
  | waitForever
deriving DecidableEq, Repr

/-- `this.#stats.totalQueries++`. -/
def bumpTotal (s : DBState) : DBState :=
  { s with stats := { s.stats with totalQueries := s.stats.totalQueries + 1 } }

/-- `this.#stats.successfulQueries++`. -/
def bumpSuccess (s : DBState) : DBState :=
  { s with stats := { s.stats with successfulQueries := s.stats.successfulQueries + 1 } }

/-- `this.#stats.failedQueries++`. -/
def bumpFailed (s : DBState) : DBState :=
  { s with stats := { s.stats with failedQueries := s.stats.failedQueries + 1 } }

/-- Embeds `query(query, params)`: validate the argument, bump
`totalQueries`, ensure connectedness (running `connect` when not
connected), take a connection from the pool, run the retry loop, bump
`successfulQueries` or `failedQueries` according to the overall outcome
and release the connection in all of these paths (`finally`). -/
def query (arg : QueryArg) (connectOk : Bool) (attemptOk : Nat → Bool)
    (s : DBState) : QueryOutcome QueryResult × DBState :=
  if validQueryArg arg then
    let s1 := bumpTotal s
    let conn :=
      if s1.connectionState = .connected then (.ok (), s1) else connect connectOk s1
    match conn with
    | (.error e, s2) => (.err e, s2)
    | (.ok _, s2) =>
      match getConnection s2 with
      | .wait s3 => (.waitForever, s3)
      | .acquired cid s3 =>
        match (executeQueryWithRetry (executeQuery attemptOk (queryText arg))
                 s3.retryAttempts s3.retryDelay).1 with
        | .ok r => (.ok r, releaseConnection cid (bumpSuccess s3))
        | .error oe =>
          (.err (oe.getD .undefinedThrown), releaseConnection cid (bumpFailed s3))
  else (.err .invalidQuery, s)

/-- `#beginTransaction`: unconditionally sets `transactionActive := true`
on the connection — there is no check that a transaction is already
active. -/
def beginTransaction (cid : Nat) (s : DBState) : DBState :=
  { s with connectionPool :=
      setConn s.connectionPool cid (fun c => { c with transactionActive := true }) }

/-- `#commitTransaction`: clears `transactionActive`. -/
def commitTransaction (cid : Nat) (s : DBState) : DBState :=
  { s with connectionPool :=
      setConn s.connectionPool cid (fun c => { c with transactionActive := false }) }

/-- `#rollbackTransaction`: clears `transactionActive` (nothing else to
undo — the backing store is simulated). -/
def rollbackTransaction (cid : Nat) (s : DBState) : DBState :=
  { s with connectionPool :=
      setConn s.connectionPool cid (fun c => { c with transactionActive := false }) }

/-- Embeds `transaction(callback)`: acquire a connection, begin, run the
callback once, commit on success / roll back on failure, re-raise the
callback's error unchanged, and release in the `finally`.  The callback is
abstracted by `body : Nat → Except DBError α`, where `body n` is the
outcome the callback would produce on its n-th invocation; the source
invokes it exactly once, so only `body 1` is consulted. -/
def transaction {α : Type} (body : Nat → Except DBError α) (s : DBState) :
    QueryOutcome α × DBState :=
  match getConnection s with
  | .wait s1 => (.waitForever, s1)
  | .acquired cid s1 =>
    let s2 := beginTransaction cid s1
    match body 1 with
    | .ok v => (.ok v, releaseConnection cid (commitTransaction cid s2))
    | .error e => (.err e, releaseConnection cid (rollbackTransaction cid s2))

/-! ## Concrete scenario states used by witnesses and counterexamples -/

/-- A connection whose `transactionActive` flag is already `true` while it
sits idle in the pool (the nesting scenario of the spec). -/
def c1Conn : Connection :=
  { id := 5, createdAt := 0, lastUsed := 0, inUse := false, transactionActive := true }

/-- A connected one-connection pool whose sole resource is already inside
a transaction. -/
def c1State : DBState :=
  { connectionState := .connected, connectionPool := [c1Conn],
    maxConnections := 10, retryAttempts := 3, retryDelay := 1,
    stats := Stats.init, nextId := 6, clock := 1 }

/-- The pool right after `connect()` followed by `disconnect()` —
"closed", in the spec's vocabulary. -/
def c2Closed : DBState :=
  disconnect (connect true (newDBState 10 3 1)).2

/-- A single connection currently in use. -/
def c3Conn : Connection :=
  { id := 0, createdAt := 0, lastUsed := 0, inUse := true, transactionActive := false }

/-- A connected pool at capacity (1 of 1 connections, in use). -/
def c3Full : DBState :=
  { connectionState := .connected, connectionPool := [c3Conn],
    maxConnections := 1, retryAttempts := 3, retryDelay := 1,
    stats := Stats.init, nextId := 1, clock := 1 }

/-- A single idle connection. -/
def c4Conn : Connection :=
  { id := 0, createdAt := 0, lastUsed := 0, inUse := false, transactionActive := false }

/-- A connected pool with one idle connection and zeroed statistics. -/
def c4State : DBState :=
  { connectionState := .connected, connectionPool := [c4Conn],
    maxConnections := 10, retryAttempts := 3, retryDelay := 1,
    stats := Stats.init, nextId := 1, clock := 1 }

/-- Attempt oracle that fails the first two attempts and succeeds from the
third on. -/
def failTwice : Nat → Bool := fun n => 3 ≤ n

/-- Capacity-1 manager, as constructed, for the capacity-overflow trace. -/
def c6Start : DBState := newDBState 1 3 1

/-- State after calling `transaction` before ever connecting: one
connection was created by `#getConnection` while still disconnected. -/
def c6Mid : DBState := (transaction (fun _ => Except.ok (0 : Nat)) c6Start).2

/-- State after a subsequent `query`, whose `connect()` re-initialization
unconditionally adds `min 3 maxConnections` more connections. -/
def c6End : DBState := (query (QueryArg.strArg "q") true (fun _ => true) c6Mid).2

/-- A connected pool with one idle connection (scenario state for the
scoped-release witnesses). -/
def c7State : DBState :=
  { connectionState := .connected,
    connectionPool :=
      [{ id := 2, createdAt := 0, lastUsed := 0, inUse := false, transactionActive := false }],
    maxConnections := 4, retryAttempts := 3, retryDelay := 5,
    stats := Stats.init, nextId := 3, clock := 1 }

/-- A connected pool with one idle connection (scenario state for the
rollback witness). -/
def c8State : DBState :=
  { connectionState := .connected,
    connectionPool :=
      [{ id := 7, createdAt := 0, lastUsed := 0, inUse := false, transactionActive := false }],
    maxConnections := 2, retryAttempts := 3, retryDelay := 2,
    stats := Stats.init, nextId := 8, clock := 4 }

/-! ## Helper lemmas -/

/-- `setConn` and `findConn` both act on the first entry whose id matches,
so updating then looking up yields the updated entry (for id-preserving
updates). -/
theorem findConn_setConn (pool : List Connection) (cid : Nat)
    (f : Connection → Connection) (hid : ∀ x, (f x).id = x.id)
    (c : Connection) (h : findConn pool cid = some c) :
    findConn (setConn pool cid f) cid = some (f c) := by
  induction pool with
  | nil => simp [findConn] at h
  | cons a as ih =>
    by_cases ha : a.id = cid
    · simp only [findConn, if_pos ha] at h
      cases h
      simp [setConn, if_pos ha, findConn, hid, ha]
    · simp only [findConn, if_neg ha] at h
      simp only [setConn, if_neg ha, findConn, if_neg ha]
      exact ih h

/-- A successful lookup means the pool tracks the id. -/
theorem poolHas_of_findConn (pool : List Connection) (cid : Nat)
    (c : Connection) (h : findConn pool cid = some c) :
    poolHas pool cid = true := by
  induction pool with
  | nil => simp [findConn] at h
  | cons a as ih =>
    by_cases ha : a.id = cid
    · simp [poolHas, if_pos ha]
    · simp only [findConn, if_neg ha] at h
      simp only [poolHas, if_neg ha]
      exact ih h

/-- An untracked id has no first match. -/
theorem poolHas_false_findConn (pool : List Connection) (cid : Nat)
    (h : poolHas pool cid = false) : findConn pool cid = none := by
  induction pool with
  | nil => simp [findConn]
  | cons a as ih =>
    by_cases ha : a.id = cid
    · simp [poolHas, if_pos ha] at h
    · simp only [poolHas, if_neg ha] at h
      simp only [findConn, if_neg ha]
      exact ih h

/-- In-place update preserves the pool size. -/
theorem length_setConn (pool : List Connection) (cid : Nat)
    (f : Connection → Connection) :
    (setConn pool cid f).length = pool.length := by
  induction pool with
  | nil => rfl
  | cons a as ih =>
    by_cases ha : a.id = cid <;> simp [setConn, ha, ih]

/-- Id-preserving updates do not change which ids the pool tracks. -/
theorem poolHas_setConn (pool : List Connection) (cid cid' : Nat)
    (f : Connection → Connection) (hid : ∀ x, (f x).id = x.id) :
    poolHas (setConn pool cid f) cid' = poolHas pool cid' := by
  induction pool with
  | nil => rfl
  | cons a as ih =>
    by_cases ha : a.id = cid
    · simp [setConn, if_pos ha, poolHas, hid a]
    · simp only [setConn, if_neg ha, poolHas]
      rw [ih]

/-- If the scan finds a free connection with id `cid`, then some entry with
that id exists, so the first-match lookup succeeds. -/
theorem findConn_of_findAvailable (pool : List Connection) (cid : Nat)
    (h : findAvailable pool = some cid) :
    ∃ c, findConn pool cid = some c := by
  induction pool with
  | nil => simp [findAvailable] at h
  | cons a as ih =>
    by_cases ha : a.id = cid
    · exact ⟨a, by simp [findConn, if_pos ha]⟩
    · simp only [findConn, if_neg ha]
      by_cases hu : a.inUse
      · simp only [findAvailable, if_pos hu] at h
        exact ih h
      · simp only [findAvailable, if_neg hu, Option.some.injEq] at h
        exact absurd h ha

/-- Looking up an id the prefix does not track lands on the appended
element. -/
theorem findConn_append (pool : List Connection) (cid : Nat)
    (c : Connection) (hnone : findConn pool cid = none) (hc : c.id = cid) :
    findConn (pool ++ [c]) cid = some c := by
  induction pool with
  | nil => simp [findConn, if_pos hc]
  | cons a as ih =>
    by_cases ha : a.id = cid
    · simp [findConn, if_pos ha] at hnone
    · simp only [findConn, if_neg ha] at hnone
      simp only [List.cons_append, findConn, if_neg ha]
      exact ih hnone

/-- Releasing (an id-targeted `inUse := false` update) gains at most one
idle entry. -/
theorem idleCountL_setConn_release (pool : List Connection) (cid t : Nat) :
    idleCountL (setConn pool cid (releaseUpd t)) ≤ idleCountL pool + 1 := by
  induction pool with
  | nil => simp [setConn, idleCountL]
  | cons a as ih =>
    by_cases ha : a.id = cid
    · by_cases hu : a.inUse
      · simp [setConn, if_pos ha, idleCountL, releaseUpd, hu]
        omega
      · simp [setConn, if_pos ha, idleCountL, releaseUpd, hu]
    · simp only [setConn, if_neg ha, idleCountL]
      omega

/-- A second release of the same id leaves the idle count as it was:
the first id match is already idle, and releasing it again keeps it so. -/
theorem idleCountL_setConn_release_twice (pool : List Connection)
    (cid t1 t2 : Nat) :
    idleCountL (setConn (setConn pool cid (releaseUpd t1)) cid (releaseUpd t2))
      = idleCountL (setConn pool cid (releaseUpd t1)) := by
  induction pool with
  | nil => simp [setConn]
  | cons a as ih =>
    by_cases ha : a.id = cid
    · have hb : (releaseUpd t1 a).id = cid := ha
      simp [setConn, if_pos ha, if_pos hb, idleCountL, releaseUpd]
    · simp only [setConn, if_neg ha, idleCountL]
      rw [ih]

/-- With no free connection and no interleaved release, the polling loop of
`#getConnection` finds nothing, for any number of 100 ms re-checks. -/
theorem pollAcquire_none (s : DBState)
    (h : findAvailable s.connectionPool = none) :
    ∀ fuel, pollAcquire s fuel = none := by
  intro fuel
  induction fuel with
  | zero => rfl
  | succ n ih => simp [pollAcquire, h, ih]

/-- Unfolding of one loop iteration (structural, holds by reflexivity). -/
theorem retryLoop_succ {E A : Type} (oc : Nat → Except E A) (d attempt rem : Nat)
    (l : Option E) :
    retryLoop oc d attempt (rem + 1) l =
      match oc attempt with
      | .ok a => (.ok a, [])
      | .error e =>
        if rem = 0 then (.error (some e), [])
        else
          let r := retryLoop oc d (attempt + 1) rem (some e)
          (r.1, d * attempt :: r.2) := rfl

/-- If every attempt in the window fails, the loop performs the linearly
growing delays `d * attempt` for every attempt but the last and ends by
throwing the error of the last attempt. -/
theorem retryLoop_all_fail {E A : Type} (oc : Nat → Except E A) (d : Nat)
    (errs : Nat → E) :
    ∀ (rsub attempt : Nat) (l : Option E),
      (∀ k, attempt ≤ k → k ≤ attempt + rsub → oc k = .error (errs k)) →
      retryLoop oc d attempt (rsub + 1) l
        = (.error (some (errs (attempt + rsub))),
           (List.range rsub).map (fun i => d * (attempt + i))) := by
  intro rsub
  induction rsub with
  | zero =>
    intro attempt l hall
    have hout : oc attempt = .error (errs attempt) := hall attempt le_rfl (by omega)
    rw [retryLoop_succ, hout]
    simp
  | succ m ih =>
    intro attempt l hall
    have hout : oc attempt = .error (errs attempt) := hall attempt le_rfl (by omega)
    have hrem : m + 1 ≠ 0 := by omega
    have ihs := ih (attempt + 1) (some (errs attempt))
      (fun k hk1 hk2 => hall k (by omega) (by omega))
    rw [retryLoop_succ, hout]
    simp only [if_neg hrem]
    rw [ihs]
    have hidx : attempt + 1 + m = attempt + (m + 1) := by omega
    rw [hidx]
    simp only [List.range_succ_eq_map, List.map_cons, List.map_map, Prod.mk.injEq,
      true_and, Nat.add_zero, List.cons.injEq, eq_self_iff_true]
    apply List.map_congr_left
    intro i _
    simp only [Function.comp_apply]
    congr 1
    omega

/-- If the first `m` attempts fail and attempt `attempt + m` succeeds
(within the allowed window), the loop resolves with that success. -/
theorem retryLoop_fail_then_ok {E A : Type} (oc : Nat → Except E A) (d : Nat) :
    ∀ (m remaining attempt : Nat) (l : Option E) (a : A), m < remaining →
      (∀ k, attempt ≤ k → k < attempt + m → ∃ e, oc k = .error e) →
      oc (attempt + m) = .ok a →
      (retryLoop oc d attempt remaining l).1 = .ok a := by
  intro m
  induction m with
  | zero =>
    intro remaining attempt l a hm _ hok
    obtain ⟨rem, rfl⟩ : ∃ rem, remaining = rem + 1 := ⟨remaining - 1, by omega⟩
    rw [Nat.add_zero] at hok
    rw [retryLoop_succ, hok]
  | succ m1 ih =>
    intro remaining attempt l a hm hfail hok
    obtain ⟨rem, rfl⟩ : ∃ rem, remaining = rem + 1 := ⟨remaining - 1, by omega⟩
    obtain ⟨e, he⟩ := hfail attempt le_rfl (by omega)
    rw [retryLoop_succ, he]
    have hrem : rem ≠ 0 := by omega
    simp only [if_neg hrem]
    exact ih rem (attempt + 1) (some e) a (by omega)
      (fun k hk1 hk2 => hfail k (by omega) (by omega))
      (by rw [show attempt + 1 + m1 = attempt + (m1 + 1) from by omega]; exact hok)

/-- A first-attempt success resolves immediately with no delay. -/
theorem executeQueryWithRetry_first_ok {E A : Type} (oc : Nat → Except E A)
    (n d : Nat) (a : A) (hn : 1 ≤ n) (h1 : oc 1 = .ok a) :
    (executeQueryWithRetry oc n d).1 = .ok a := by
  unfold executeQueryWithRetry
  exact retryLoop_fail_then_ok oc d 0 n 1 none a (by omega)
    (fun k hk1 hk2 => absurd hk2 (by omega)) (by rw [Nat.add_zero]; exact h1)

/-- `#executeQueryWithRetry` with every attempt failing: the delays are
`d * 1, …, d * (n - 1)` (none after the last attempt) and the error thrown
is the one observed on the last attempt. -/
theorem executeQueryWithRetry_all_fail {E A : Type} (oc : Nat → Except E A)
    (errs : Nat → E) (n d : Nat) (hn : 1 ≤ n)
    (hall : ∀ k, 1 ≤ k → k ≤ n → oc k = .error (errs k)) :
    executeQueryWithRetry oc n d
      = (.error (some (errs n)),
         (List.range (n - 1)).map (fun i => d * (i + 1))) := by
  obtain ⟨rsub, rfl⟩ : ∃ rsub, n = rsub + 1 := ⟨n - 1, by omega⟩
  unfold executeQueryWithRetry
  rw [retryLoop_all_fail oc d errs rsub 1 none
    (fun k hk1 hk2 => hall k hk1 (by omega))]
  have hidx : 1 + rsub = rsub + 1 := by omega
  rw [hidx]
  simp only [Nat.add_sub_cancel, Prod.mk.injEq, true_and]
  apply List.map_congr_left
  intro i _
  congr 1
  omega

/-- Case analysis on `#getConnection`: the free-connection branch. -/
theorem getConnection_found (s : DBState) (cid : Nat)
    (hfa : findAvailable s.connectionPool = some cid) :
    getConnection s = .acquired cid
      { s with
        connectionPool :=
          setConn s.connectionPool cid
            (fun c => { c with inUse := true, lastUsed := s.clock }),
        clock := s.clock + 1 } := by
  unfold getConnection
  rw [hfa]

/-- Case analysis on `#getConnection`: the create-new-connection branch. -/
theorem getConnection_create (s : DBState)
    (hfa : findAvailable s.connectionPool = none)
    (hlt : s.connectionPool.length < s.maxConnections) :
    getConnection s = .acquired s.nextId
      { s with
        connectionPool := s.connectionPool ++ [freshInUse s],
        nextId := s.nextId + 1, clock := s.clock + 1,
        stats := { s.stats with
          activeConnections := (s.connectionPool ++ [freshInUse s]).length } } := by
  unfold getConnection
  rw [hfa]
  simp only [if_pos hlt, createConnection, freshInUse]

/-- Case analysis on `#getConnection`: the exhausted branch enters the
polling loop. -/
theorem getConnection_full (s : DBState)
    (hfa : findAvailable s.connectionPool = none)
    (hge : ¬ s.connectionPool.length < s.maxConnections) :
    getConnection s = .wait s := by
  unfold getConnection
  rw [hfa]
  simp only [if_neg hge]

/-- An acquisition leaves the lifecycle state, the configuration and the
query counters untouched (only the pool, clock, id counter and the
`activeConnections` gauge may change). -/
theorem getConnection_acquired_fields (s : DBState) (cid : Nat) (s' : DBState)
    (h : getConnection s = .acquired cid s') :
    s'.connectionState = s.connectionState ∧
    s'.maxConnections = s.maxConnections ∧
    s'.retryAttempts = s.retryAttempts ∧
    s'.retryDelay = s.retryDelay ∧
    s'.stats.totalQueries = s.stats.totalQueries ∧
    s'.stats.successfulQueries = s.stats.successfulQueries ∧
    s'.stats.failedQueries = s.stats.failedQueries := by
  cases hfa : findAvailable s.connectionPool with
  | some cid0 =>
    rw [getConnection_found s cid0 hfa] at h
    cases h
    exact ⟨rfl, rfl, rfl, rfl, rfl, rfl, rfl⟩
  | none =>
    by_cases hlt : s.connectionPool.length < s.maxConnections
    · rw [getConnection_create s hfa hlt] at h
      cases h
      exact ⟨rfl, rfl, rfl, rfl, rfl, rfl, rfl⟩
    · rw [getConnection_full s hfa hlt] at h
      exact absurd h (by simp)

/-- After a successful acquisition the returned id is tracked and marked
in use. -/
theorem getConnection_acquired_inUse (s : DBState) (cid : Nat) (s' : DBState)
    (hfresh : poolHas s.connectionPool s.nextId = false)
    (h : getConnection s = .acquired cid s') :
    ∃ c, findConn s'.connectionPool cid = some c ∧ c.inUse = true := by
  cases hfa : findAvailable s.connectionPool with
  | some cid0 =>
    obtain ⟨c0, hc0⟩ := findConn_of_findAvailable s.connectionPool cid0 hfa
    rw [getConnection_found s cid0 hfa] at h
    cases h
    exact ⟨_, findConn_setConn s.connectionPool cid
      (fun c => { c with inUse := true, lastUsed := s.clock })
      (fun x => rfl) c0 hc0, rfl⟩
  | none =>
    by_cases hlt : s.connectionPool.length < s.maxConnections
    · rw [getConnection_create s hfa hlt] at h
      cases h
      refine ⟨_, findConn_append s.connectionPool s.nextId _
        (poolHas_false_findConn _ _ hfresh) rfl, rfl⟩
    · rw [getConnection_full s hfa hlt] at h
      exact absurd h (by simp)

/-- `#releaseConnection` on a tracked handle, unfolded. -/
theorem releaseConnection_of_has (cid : Nat) (s : DBState)
    (h : poolHas s.connectionPool cid = true) :
    releaseConnection cid s =
      { s with connectionPool := setConn s.connectionPool cid (releaseUpd s.clock),
               clock := s.clock + 1 } := by
  simp [releaseConnection, h]

/-- `#releaseConnection` on an untracked handle is a strict no-op. -/
theorem releaseConnection_of_not_has (cid : Nat) (s : DBState)
    (h : poolHas s.connectionPool cid = false) :
    releaseConnection cid s = s := by
  simp [releaseConnection, h]

/-- Release never touches the lifecycle state, statistics, configuration
or pool size. -/
theorem releaseConnection_fields (cid : Nat) (s : DBState) :
    (releaseConnection cid s).connectionState = s.connectionState ∧
    (releaseConnection cid s).stats = s.stats ∧
    (releaseConnection cid s).maxConnections = s.maxConnections ∧
    (releaseConnection cid s).connectionPool.length = s.connectionPool.length := by
  by_cases h : poolHas s.connectionPool cid
  · rw [releaseConnection_of_has cid s h]
    exact ⟨rfl, rfl, rfl, length_setConn s.connectionPool cid (releaseUpd s.clock)⟩
  · rw [releaseConnection_of_not_has cid s (by simpa using h)]
    exact ⟨rfl, rfl, rfl, rfl⟩

/-- Releasing a tracked handle rewrites its entry to idle with a fresh
`lastUsed`. -/
theorem findConn_releaseConnection (cid : Nat) (s : DBState) (c : Connection)
    (h : findConn s.connectionPool cid = some c) :
    findConn (releaseConnection cid s).connectionPool cid
      = some (releaseUpd s.clock c) := by
  rw [releaseConnection_of_has cid s (poolHas_of_findConn _ _ _ h)]
  exact findConn_setConn s.connectionPool cid (releaseUpd s.clock) (fun x => rfl) c h

/-- `#beginTransaction` rewrites the target entry's flag to `true`,
whatever it was before. -/
theorem findConn_beginTransaction (cid : Nat) (s : DBState) (c : Connection)
    (h : findConn s.connectionPool cid = some c) :
    findConn (beginTransaction cid s).connectionPool cid
      = some { c with transactionActive := true } := by
  exact findConn_setConn s.connectionPool cid
    (fun c => { c with transactionActive := true }) (fun x => rfl) c h

/-- `#commitTransaction` rewrites the target entry's flag to `false`. -/
theorem findConn_commitTransaction (cid : Nat) (s : DBState) (c : Connection)
    (h : findConn s.connectionPool cid = some c) :
    findConn (commitTransaction cid s).connectionPool cid
      = some { c with transactionActive := false } := by
  exact findConn_setConn s.connectionPool cid
    (fun c => { c with transactionActive := false }) (fun x => rfl) c h

/-- `#rollbackTransaction` rewrites the target entry's flag to `false`. -/
theorem findConn_rollbackTransaction (cid : Nat) (s : DBState) (c : Connection)
    (h : findConn s.connectionPool cid = some c) :
    findConn (rollbackTransaction cid s).connectionPool cid
      = some { c with transactionActive := false } := by
  exact findConn_setConn s.connectionPool cid
    (fun c => { c with transactionActive := false }) (fun x => rfl) c h

/-- The pool-initialization loop only appends: the existing pool is a
prefix of the result. -/
theorem addFresh_prefix : ∀ (n : Nat) (s : DBState),
    ∃ t, (addFreshConnections n s).connectionPool = s.connectionPool ++ t := by
  intro n
  induction n with
  | zero => intro s; exact ⟨[], by simp [addFreshConnections]⟩
  | succ m ih =>
    intro s
    obtain ⟨t, ht⟩ := ih
      { s with
        connectionPool := s.connectionPool ++ [(createConnection s).1],
        nextId := s.nextId + 1,
        clock := s.clock + 1 }
    refine ⟨(createConnection s).1 :: t, ?_⟩
    rw [addFreshConnections]
    rw [show ({ (createConnection s).2 with
          connectionPool := (createConnection s).2.connectionPool ++ [(createConnection s).1] } : DBState)
        = { s with
            connectionPool := s.connectionPool ++ [(createConnection s).1],
            nextId := s.nextId + 1,
            clock := s.clock + 1 } from rfl]
    rw [ht]
    simp

/-- When at least one connection is created, the first one — free, with id
`s.nextId` and dates at the current clock — heads the appended block. -/
theorem addFresh_head (n : Nat) (s : DBState) (hn : 1 ≤ n) :
    ∃ t, (addFreshConnections n s).connectionPool
      = s.connectionPool ++
        ({ id := s.nextId, createdAt := s.clock, lastUsed := s.clock,
           inUse := false, transactionActive := false } :: t) := by
  obtain ⟨m, rfl⟩ : ∃ m, n = m + 1 := ⟨n - 1, by omega⟩
  obtain ⟨t, ht⟩ := addFresh_prefix m
    { s with
      connectionPool := s.connectionPool ++ [(createConnection s).1],
      nextId := s.nextId + 1,
      clock := s.clock + 1 }
  refine ⟨t, ?_⟩
  rw [addFreshConnections]
  rw [show ({ (createConnection s).2 with
        connectionPool := (createConnection s).2.connectionPool ++ [(createConnection s).1] } : DBState)
      = { s with
          connectionPool := s.connectionPool ++ [(createConnection s).1],
          nextId := s.nextId + 1,
          clock := s.clock + 1 } from rfl]
  rw [ht]
  simp [createConnection]

/-- The pool-initialization loop leaves every field but the pool, the id
counter and the clock unchanged. -/
theorem addFresh_fields : ∀ (n : Nat) (s : DBState),
    (addFreshConnections n s).connectionState = s.connectionState ∧
    (addFreshConnections n s).maxConnections = s.maxConnections ∧
    (addFreshConnections n s).retryAttempts = s.retryAttempts ∧
    (addFreshConnections n s).retryDelay = s.retryDelay ∧
    (addFreshConnections n s).stats = s.stats := by
  intro n
  induction n with
  | zero => intro s; exact ⟨rfl, rfl, rfl, rfl, rfl⟩
  | succ m ih =>
    intro s
    rw [addFreshConnections]
    exact ih _

/-- Bumping `totalQueries` touches nothing else. -/
theorem bumpTotal_fields (s : DBState) :
    (bumpTotal s).connectionState = s.connectionState ∧
    (bumpTotal s).connectionPool = s.connectionPool ∧
    (bumpTotal s).maxConnections = s.maxConnections ∧
    (bumpTotal s).retryAttempts = s.retryAttempts ∧
    (bumpTotal s).nextId = s.nextId ∧
    (bumpTotal s).clock = s.clock := ⟨rfl, rfl, rfl, rfl, rfl, rfl⟩

/-- Bumping `successfulQueries` touches nothing else. -/
theorem bumpSuccess_fields (s : DBState) :
    (bumpSuccess s).connectionState = s.connectionState ∧
    (bumpSuccess s).connectionPool = s.connectionPool ∧
    (bumpSuccess s).clock = s.clock := ⟨rfl, rfl, rfl⟩

/-- Bumping `failedQueries` touches nothing else. -/
theorem bumpFailed_fields (s : DBState) :
    (bumpFailed s).connectionState = s.connectionState ∧
    (bumpFailed s).connectionPool = s.connectionPool ∧
    (bumpFailed s).clock = s.clock := ⟨rfl, rfl, rfl⟩

/-! ## Claim theorems -/

/-- C10: a missing, empty or non-string `query` argument makes `query`
throw `Query must be a non-empty string` before any state change — the
statistics (including `totalQueries`), the pool and every other field are
exactly as before the call. -/
theorem C10_validation_before_state_change (s : DBState) (connectOk : Bool)
    (attemptOk : Nat → Bool) :
    query QueryArg.missing connectOk attemptOk s
      = (QueryOutcome.err DBError.invalidQuery, s) ∧
    query (QueryArg.strArg "") connectOk attemptOk s
      = (QueryOutcome.err DBError.invalidQuery, s) ∧
    query QueryArg.nonString connectOk attemptOk s
      = (QueryOutcome.err DBError.invalidQuery, s) ∧
    ∀ arg, validQueryArg arg = false →
      query arg connectOk attemptOk s
        = (QueryOutcome.err DBError.invalidQuery, s) := by
  have h0 : validQueryArg (QueryArg.strArg "") = false := by decide
  refine ⟨?_, ?_, ?_, ?_⟩
  · simp [query, validQueryArg]
  · simp [query, h0]
  · simp [query, validQueryArg]
  · intro arg h
    simp [query, h]

/-- C9: releasing a tracked handle marks it `inUse = false` and refreshes
`lastUsedAt`; releasing an untracked handle is a strict no-op; and a
double release never gains more than one idle entry. -/
theorem C9_release_idempotent (s : DBState) (cid : Nat) :
    (∀ c, findConn s.connectionPool cid = some c →
      findConn (releaseConnection cid s).connectionPool cid
        = some { c with inUse := false, lastUsed := s.clock }) ∧
    (poolHas s.connectionPool cid = false → releaseConnection cid s = s) ∧
    idleCount (releaseConnection cid (releaseConnection cid s)) ≤ idleCount s + 1 := by
  refine ⟨?_, ?_, ?_⟩
  · intro c h
    exact findConn_releaseConnection cid s c h
  · intro h
    exact releaseConnection_of_not_has cid s h
  · by_cases h : poolHas s.connectionPool cid
    · rw [releaseConnection_of_has cid s h]
      have h1 : poolHas (setConn s.connectionPool cid (releaseUpd s.clock)) cid = true := by
        rw [poolHas_setConn s.connectionPool cid cid (releaseUpd s.clock) (fun x => rfl)]
        exact h
      rw [releaseConnection_of_has cid _ h1]
      show idleCountL (setConn (setConn s.connectionPool cid (releaseUpd s.clock)) cid
          (releaseUpd (s.clock + 1))) ≤ idleCountL s.connectionPool + 1
      rw [idleCountL_setConn_release_twice s.connectionPool cid s.clock (s.clock + 1)]
      exact idleCountL_setConn_release s.connectionPool cid s.clock
    · have hf : poolHas s.connectionPool cid = false := by simpa using h
      rw [releaseConnection_of_not_has cid s hf, releaseConnection_of_not_has cid s hf]
      omega

/-- C9 witness: the general release theorem applied to a concrete pool
tracking id 2 (and, for the untracked part, to the id 99 it does not
track). -/
theorem C9_release_idempotent_witness :
    (findConn (releaseConnection 2 c7State).connectionPool 2
      = some { id := 2, createdAt := 0, lastUsed := 1, inUse := false,
               transactionActive := false }) ∧
    releaseConnection 99 c7State = c7State ∧
    idleCount (releaseConnection 2 (releaseConnection 2 c7State)) ≤ idleCount c7State + 1 := by
  refine ⟨?_, ?_, ?_⟩
  · exact (C9_release_idempotent c7State 2).1
      { id := 2, createdAt := 0, lastUsed := 0, inUse := false, transactionActive := false }
      (by decide)
  · exact (C9_release_idempotent c7State 99).2.1 (by decide)
  · exact (C9_release_idempotent c7State 2).2.2

/-- C1 counterexample: with the pool's sole idle resource already marked
`transactionActive`, `transaction` does not fail at all — it succeeds and
returns the callback value — and the pool state does change (flags, dates
and clock move), contradicting both halves of the claim.  There is no
NestedTransaction error anywhere in the code. -/
theorem C1_counterexample :
    (transaction (fun _ => Except.ok (42 : Nat)) c1State).1 = QueryOutcome.ok 42 ∧
    c1Conn.transactionActive = true ∧
    findAvailable c1State.connectionPool = some c1Conn.id ∧
    (transaction (fun _ => Except.ok (42 : Nat)) c1State).2 ≠ c1State := by
  decide

/-- C1 amended: the code performs no nesting check.  `#beginTransaction`
unconditionally sets `transactionActive := true`, whatever its prior
value, and a `transaction` acquiring a resource whose flag is already
`true` proceeds normally and returns the callback's value instead of
rejecting with a NestedTransaction error (no such error exists in the
code). -/
theorem C1_no_nesting_check {α : Type} (s : DBState) (cid : Nat)
    (c : Connection) (v : α)
    (hfind : findConn s.connectionPool cid = some c)
    (_hactive : c.transactionActive = true)
    (hfa : findAvailable s.connectionPool = some cid) :
    findConn (beginTransaction cid s).connectionPool cid
      = some { c with transactionActive := true } ∧
    (transaction (fun _ => Except.ok v) s).1 = QueryOutcome.ok v := by
  constructor
  · exact findConn_beginTransaction cid s c hfind
  · unfold transaction
    rw [getConnection_found s cid hfa]

/-- C1 witness: the amended theorem applied to the concrete
already-in-transaction pool. -/
theorem C1_no_nesting_check_witness :
    findConn (beginTransaction 5 c1State).connectionPool 5
      = some { c1Conn with transactionActive := true } ∧
    (transaction (fun _ => Except.ok (9 : Nat)) c1State).1 = QueryOutcome.ok 9 := by
  exact C1_no_nesting_check c1State 5 c1Conn 9 (by decide) (by decide) (by decide)

/-- C3 counterexample: on a pool at capacity with every connection in use,
`#getConnection` never fails with an AcquireTimeout — it enters the
unbounded polling loop, and (with no interleaved release) any number of
100 ms re-checks, here 600 of them (a minute of wall time, far past any
plausible `acquireTimeoutMs`), still yields no connection and no error. -/
theorem C3_counterexample :
    getConnection c3Full = AcquireOutcome.wait c3Full ∧
    pollAcquire c3Full 600 = none ∧
    c3Full.connectionPool.length = c3Full.maxConnections := by
  refine ⟨by decide, ?_, by decide⟩
  exact pollAcquire_none c3Full (by decide) 600

/-- C3 amended: on a Ready pool, acquire marks and returns the first free
resource (refreshing `lastUsed`); otherwise, below capacity, it creates a
fresh in-use resource (id `nextId`) and appends it; otherwise the caller
polls every 100 ms indefinitely — there is no acquire timeout and no
AcquireTimeout error, the wait is unbounded. -/
theorem C3_acquire_behavior (s : DBState) :
    (∀ cid c, findAvailable s.connectionPool = some cid →
      findConn s.connectionPool cid = some c →
      ∃ s', getConnection s = .acquired cid s' ∧
        s'.connectionPool.length = s.connectionPool.length ∧
        findConn s'.connectionPool cid
          = some { c with inUse := true, lastUsed := s.clock }) ∧
    (findAvailable s.connectionPool = none →
      s.connectionPool.length < s.maxConnections →
      poolHas s.connectionPool s.nextId = false →
      ∃ s', getConnection s = .acquired s.nextId s' ∧
        s'.connectionPool.length = s.connectionPool.length + 1 ∧
        findConn s'.connectionPool s.nextId = some (freshInUse s)) ∧
    (findAvailable s.connectionPool = none →
      ¬ s.connectionPool.length < s.maxConnections →
      getConnection s = .wait s ∧ ∀ fuel, pollAcquire s fuel = none) := by
  refine ⟨?_, ?_, ?_⟩
  · intro cid c hfa hfind
    refine ⟨_, getConnection_found s cid hfa, ?_, ?_⟩
    · exact length_setConn s.connectionPool cid _
    · exact findConn_setConn s.connectionPool cid
        (fun c => { c with inUse := true, lastUsed := s.clock }) (fun x => rfl) c hfind
  · intro hfa hlt hfresh
    refine ⟨_, getConnection_create s hfa hlt, ?_, ?_⟩
    · simp
    · exact findConn_append s.connectionPool s.nextId (freshInUse s)
        (poolHas_false_findConn s.connectionPool s.nextId hfresh) rfl
  · intro hfa hge
    exact ⟨getConnection_full s hfa hge, pollAcquire_none s hfa⟩

/-- C3 witness: the three branches of the acquire theorem at concrete
pools — one with a free connection, one empty below capacity, one full. -/
theorem C3_acquire_behavior_witness :
    (∃ s', getConnection c4State = AcquireOutcome.acquired 0 s' ∧
      s'.connectionPool.length = c4State.connectionPool.length ∧
      findConn s'.connectionPool 0
        = some { c4Conn with inUse := true, lastUsed := c4State.clock }) ∧
    (∃ s', getConnection (newDBState 2 3 1) = AcquireOutcome.acquired 0 s' ∧
      s'.connectionPool.length = 1 ∧
      findConn s'.connectionPool 0 = some (freshInUse (newDBState 2 3 1))) ∧
    (getConnection c3Full = AcquireOutcome.wait c3Full ∧
      ∀ fuel, pollAcquire c3Full fuel = none) := by
  refine ⟨?_, ?_, ?_⟩
  · exact (C3_acquire_behavior c4State).1 0 c4Conn (by decide) (by decide)
  · exact (C3_acquire_behavior (newDBState 2 3 1)).2.1 (by decide) (by decide) (by decide)
  · exact (C3_acquire_behavior c3Full).2.2 (by decide) (by decide)

/-- C6: the capacity invariant is violated by the code.  With capacity 1,
calling `transaction` before ever connecting creates one connection while
the manager is still disconnected (`transaction` never checks the
connection state); the next `query` then runs `connect()`, whose pool
initialization unconditionally adds `min 3 maxConnections` = 1 more
connection without checking the existing pool, ending with 2 connections
in a capacity-1 pool. -/
theorem C6_capacity_overflow :
    c6Start.maxConnections = 1 ∧
    c6Mid.connectionState = ConnState.disconnected ∧
    c6Mid.connectionPool.length = 1 ∧
    c6End.connectionPool.length = 2 ∧
    c6End.maxConnections = 1 ∧
    c6End.stats.activeConnections = 2 := by
  decide

/-- C8: a `transaction` whose body throws takes the rollback path: the
error is re-raised unchanged, the resource ends with
`transactionActive = false` and `inUse = false` (back in the idle set),
and no retry happens at this layer — even if a second invocation of the
body would succeed, the result is still the first invocation's error. -/
theorem C8_rollback_on_failure {α : Type} (s : DBState) (cid : Nat)
    (s' : DBState) (body : Nat → Except DBError α) (e : DBError) (v : α)
    (hfresh : poolHas s.connectionPool s.nextId = false)
    (hacq : getConnection s = .acquired cid s')
    (hb : body 1 = .error e) :
    (transaction body s).1 = QueryOutcome.err e ∧
    (∃ c, findConn (transaction body s).2.connectionPool cid = some c ∧
      c.transactionActive = false ∧ c.inUse = false) ∧
    (transaction (fun n => if n = 1 then Except.error e else Except.ok v) s).1
      = QueryOutcome.err e := by
  obtain ⟨c1, hc1, _⟩ := getConnection_acquired_inUse s cid s' hfresh hacq
  have h2 := findConn_beginTransaction cid s' c1 hc1
  have h3 := findConn_rollbackTransaction cid (beginTransaction cid s') _ h2
  have h4 := findConn_releaseConnection cid
    (rollbackTransaction cid (beginTransaction cid s')) _ h3
  have hred : transaction body s
      = (QueryOutcome.err e,
         releaseConnection cid (rollbackTransaction cid (beginTransaction cid s'))) := by
    unfold transaction
    rw [hacq]
    simp only [hb]
  refine ⟨by rw [hred], ?_, ?_⟩
  · rw [hred]
    exact ⟨_, h4, rfl, rfl⟩
  · have hb2 : (fun n => if n = 1 then Except.error e else Except.ok v) 1
        = (Except.error e : Except DBError α) := by simp
    have hred2 : transaction (fun n => if n = 1 then Except.error e else Except.ok v) s
        = (QueryOutcome.err e,
           releaseConnection cid (rollbackTransaction cid (beginTransaction cid s'))) := by
      unfold transaction
      rw [hacq]
      simp
    rw [hred2]

/-- C8 witness: the rollback theorem at a concrete one-connection pool
with a body that throws `queryFailed` on its only invocation. -/
theorem C8_rollback_on_failure_witness :
    (transaction (fun _ => (Except.error DBError.queryFailed : Except DBError Nat)) c8State).1
      = QueryOutcome.err DBError.queryFailed ∧
    (∃ c, findConn (transaction
        (fun _ => (Except.error DBError.queryFailed : Except DBError Nat)) c8State).2.connectionPool 7
      = some c ∧ c.transactionActive = false ∧ c.inUse = false) ∧
    (transaction (fun n => if n = 1 then Except.error DBError.queryFailed
        else Except.ok (3 : Nat)) c8State).1 = QueryOutcome.err DBError.queryFailed := by
  exact C8_rollback_on_failure c8State 7
    { c8State with
      connectionPool := setConn c8State.connectionPool 7
        (fun c => { c with inUse := true, lastUsed := c8State.clock }),
      clock := c8State.clock + 1 }
    (fun _ => Except.error DBError.queryFailed) DBError.queryFailed 3
    (by decide) (by decide) rfl

/-- Reduction of `query` on an already-connected manager, given the
acquisition outcome: the call collapses to the retry loop's result with
the matching statistics bump and the final release. -/
theorem query_connected_reduce (s : DBState) (arg : QueryArg) (connectOk : Bool)
    (attemptOk : Nat → Bool) (cid : Nat) (s' : DBState)
    (hconn : s.connectionState = .connected)
    (harg : validQueryArg arg = true)
    (hacq : getConnection (bumpTotal s) = .acquired cid s') :
    query arg connectOk attemptOk s =
      match (executeQueryWithRetry (executeQuery attemptOk (queryText arg))
          s'.retryAttempts s'.retryDelay).1 with
      | .ok r => (.ok r, releaseConnection cid (bumpSuccess s'))
      | .error oe =>
        (.err (oe.getD .undefinedThrown), releaseConnection cid (bumpFailed s')) := by
  have hbt : (bumpTotal s).connectionState = s.connectionState := rfl
  unfold query
  simp only [harg, if_true, hbt, hconn, eq_self_iff_true, hacq]

/-- `connect()` on a disconnected manager with a succeeding simulation:
runs the pool initialization and ends connected. -/
theorem connect_true_disconnected (s : DBState)
    (hs : s.connectionState = .disconnected) :
    connect true s
      = (.ok (), { initPool { s with connectionState := ConnState.connecting } with
                   connectionState := ConnState.connected }) := by
  unfold connect
  rw [hs]
  rfl

/-- Reduction of `query` on a non-connected manager: the call first runs
`connect` (it does NOT fail), then proceeds exactly as in the connected
case against the reconnected state. -/
theorem query_reconnect_reduce (s : DBState) (arg : QueryArg)
    (attemptOk : Nat → Bool) (cid : Nat) (s2 s3 : DBState)
    (hstate : s.connectionState = .disconnected)
    (harg : validQueryArg arg = true)
    (hcon : connect true (bumpTotal s) = (.ok (), s2))
    (hacq : getConnection s2 = .acquired cid s3) :
    query arg true attemptOk s =
      match (executeQueryWithRetry (executeQuery attemptOk (queryText arg))
          s3.retryAttempts s3.retryDelay).1 with
      | .ok r => (.ok r, releaseConnection cid (bumpSuccess s3))
      | .error oe =>
        (.err (oe.getD .undefinedThrown), releaseConnection cid (bumpFailed s3)) := by
  have hbt : (bumpTotal s).connectionState = s.connectionState := rfl
  have hne : ¬ (bumpTotal s).connectionState = ConnState.connected := by
    rw [hbt, hstate]
    simp
  unfold query
  simp only [harg, if_true, if_neg hne, hcon, hacq]

/-- C7: both scoped operations release the acquired resource
unconditionally (its `inUse` flag is `false` in the final state whether
the unit of work succeeded or failed) and propagate the unit of work's
result or error unchanged — `transaction` passes the callback's value or
error through, `query` passes the retry loop's resolution through. -/
theorem C7_scoped_release {α : Type} (s : DBState) (cid : Nat)
    (s1' s2' : DBState) (body : Nat → Except DBError α) (arg : QueryArg)
    (connectOk : Bool) (attemptOk : Nat → Bool) :
    (getConnection s = .acquired cid s1' →
      poolHas s.connectionPool s.nextId = false →
      (∀ v, body 1 = .ok v → (transaction body s).1 = QueryOutcome.ok v) ∧
      (∀ e, body 1 = .error e → (transaction body s).1 = QueryOutcome.err e) ∧
      (∃ c, findConn (transaction body s).2.connectionPool cid = some c ∧
        c.inUse = false)) ∧
    (s.connectionState = .connected → validQueryArg arg = true →
      getConnection (bumpTotal s) = .acquired cid s2' →
      poolHas (bumpTotal s).connectionPool (bumpTotal s).nextId = false →
      (∀ r, (executeQueryWithRetry (executeQuery attemptOk (queryText arg))
          s2'.retryAttempts s2'.retryDelay).1 = .ok r →
        (query arg connectOk attemptOk s).1 = QueryOutcome.ok r) ∧
      (∀ e, (executeQueryWithRetry (executeQuery attemptOk (queryText arg))
          s2'.retryAttempts s2'.retryDelay).1 = .error (some e) →
        (query arg connectOk attemptOk s).1 = QueryOutcome.err e) ∧
      (∃ c, findConn (query arg connectOk attemptOk s).2.connectionPool cid
        = some c ∧ c.inUse = false)) := by
  constructor
  · intro hacq hfresh
    obtain ⟨c1, hc1, _⟩ := getConnection_acquired_inUse s cid s1' hfresh hacq
    have hbegin := findConn_beginTransaction cid s1' c1 hc1
    have hcommit := findConn_commitTransaction cid (beginTransaction cid s1') _ hbegin
    have hrelC := findConn_releaseConnection cid
      (commitTransaction cid (beginTransaction cid s1')) _ hcommit
    have hroll := findConn_rollbackTransaction cid (beginTransaction cid s1') _ hbegin
    have hrelR := findConn_releaseConnection cid
      (rollbackTransaction cid (beginTransaction cid s1')) _ hroll
    refine ⟨?_, ?_, ?_⟩
    · intro v hv
      unfold transaction
      rw [hacq]
      simp only [hv]
    · intro e he
      unfold transaction
      rw [hacq]
      simp only [he]
    · cases hb1 : body 1 with
      | ok v =>
        have hred : transaction body s
            = (QueryOutcome.ok v, releaseConnection cid
                (commitTransaction cid (beginTransaction cid s1'))) := by
          unfold transaction
          rw [hacq]
          simp only [hb1]
        rw [hred]
        exact ⟨_, hrelC, rfl⟩
      | error e =>
        have hred : transaction body s
            = (QueryOutcome.err e, releaseConnection cid
                (rollbackTransaction cid (beginTransaction cid s1'))) := by
          unfold transaction
          rw [hacq]
          simp only [hb1]
        rw [hred]
        exact ⟨_, hrelR, rfl⟩
  · intro hconn harg hacq hfresh
    have hq := query_connected_reduce s arg connectOk attemptOk cid s2' hconn harg hacq
    obtain ⟨c1, hc1, _⟩ := getConnection_acquired_inUse (bumpTotal s) cid s2' hfresh hacq
    refine ⟨?_, ?_, ?_⟩
    · intro r hr
      rw [hq, hr]
    · intro e he
      rw [hq, he]
      rfl
    · cases hres : (executeQueryWithRetry (executeQuery attemptOk (queryText arg))
          s2'.retryAttempts s2'.retryDelay).1 with
      | ok r =>
        rw [hq, hres]
        exact ⟨_, findConn_releaseConnection cid (bumpSuccess s2') c1 hc1, rfl⟩
      | error oe =>
        rw [hq, hres]
        exact ⟨_, findConn_releaseConnection cid (bumpFailed s2') c1 hc1, rfl⟩

/-- C7 witness: the scoped-release theorem at a concrete connected pool —
the callback value 5 and a thrown `queryFailed` both propagate, the
resource is idle afterwards in both the transaction and the query path. -/
theorem C7_scoped_release_witness :
    ((transaction (fun _ => Except.ok (5 : Nat)) c7State).1 = QueryOutcome.ok 5) ∧
    ((transaction (fun _ => (Except.error DBError.queryFailed : Except DBError Nat))
        c7State).1 = QueryOutcome.err DBError.queryFailed) ∧
    (∃ c, findConn (transaction (fun _ => Except.ok (5 : Nat)) c7State).2.connectionPool 2
      = some c ∧ c.inUse = false) ∧
    ((query (QueryArg.strArg "SELECT 1") true (fun _ => true) c7State).1
      = QueryOutcome.ok (simulatedResult "SELECT 1")) ∧
    (∃ c, findConn (query (QueryArg.strArg "SELECT 1") true (fun _ => true)
        c7State).2.connectionPool 2 = some c ∧ c.inUse = false) := by
  have hok := @C7_scoped_release Nat c7State 2
    { c7State with
      connectionPool := setConn c7State.connectionPool 2
        (fun c => { c with inUse := true, lastUsed := c7State.clock }),
      clock := c7State.clock + 1 }
    { bumpTotal c7State with
      connectionPool := setConn c7State.connectionPool 2
        (fun c => { c with inUse := true, lastUsed := c7State.clock }),
      clock := c7State.clock + 1 }
    (fun _ => Except.ok 5) (QueryArg.strArg "SELECT 1") true (fun _ => true)
  have herr := @C7_scoped_release Nat c7State 2
    { c7State with
      connectionPool := setConn c7State.connectionPool 2
        (fun c => { c with inUse := true, lastUsed := c7State.clock }),
      clock := c7State.clock + 1 }
    { bumpTotal c7State with
      connectionPool := setConn c7State.connectionPool 2
        (fun c => { c with inUse := true, lastUsed := c7State.clock }),
      clock := c7State.clock + 1 }
    (fun _ => Except.error DBError.queryFailed) (QueryArg.strArg "SELECT 1") true
    (fun _ => true)
  have h1 := hok.1 (by decide) (by decide)
  have h2 := herr.1 (by decide) (by decide)
  have h3 := hok.2 (by decide) (by decide) (by decide) (by decide)
  exact ⟨h1.1 5 rfl, h2.2.1 DBError.queryFailed rfl, h1.2.2,
    h3.1 (simulatedResult "SELECT 1") (by rfl), h3.2.2⟩

/-- C4 counterexample: with `retryAttempts = 3` and an operation failing
twice then succeeding, `query` does return the success value, but the
statistics record ONE query (`totalQueries = 1`, `successfulQueries = 1`),
not 3 attempts: the counters are updated once per call, never per
attempt — `#executeQueryWithRetry` does not touch `#stats` at all. -/
theorem C4_counterexample :
    (query (QueryArg.strArg "SELECT") true failTwice c4State).1
      = QueryOutcome.ok (simulatedResult "SELECT") ∧
    (query (QueryArg.strArg "SELECT") true failTwice c4State).2.stats.totalQueries = 1 ∧
    (query (QueryArg.strArg "SELECT") true failTwice c4State).2.stats.successfulQueries = 1 ∧
    ¬ (query (QueryArg.strArg "SELECT") true failTwice c4State).2.stats.totalQueries = 3 := by
  decide

/-- C4 amended: with `maxAttempts = 3` and an operation failing twice then
succeeding, `execute` returns the success value, but statistics are
updated once per call, not once per attempt: `totalQueries` grows by one
at call entry and `successfulQueries` by one on the overall success, while
`failedQueries` is untouched — no counter records the 3 attempts. -/
theorem C4_stats_once_per_call (s : DBState) (arg : QueryArg)
    (connectOk : Bool) (attemptOk : Nat → Bool) (cid : Nat) (s' : DBState)
    (hconn : s.connectionState = .connected)
    (harg : validQueryArg arg = true)
    (hacq : getConnection (bumpTotal s) = .acquired cid s')
    (hretry : s.retryAttempts = 3)
    (h1 : attemptOk 1 = false) (h2 : attemptOk 2 = false)
    (h3 : attemptOk 3 = true) :
    (query arg connectOk attemptOk s).1
      = QueryOutcome.ok (simulatedResult (queryText arg)) ∧
    (query arg connectOk attemptOk s).2.stats.totalQueries
      = s.stats.totalQueries + 1 ∧
    (query arg connectOk attemptOk s).2.stats.successfulQueries
      = s.stats.successfulQueries + 1 ∧
    (query arg connectOk attemptOk s).2.stats.failedQueries
      = s.stats.failedQueries := by
  have hq := query_connected_reduce s arg connectOk attemptOk cid s' hconn harg hacq
  have hfields := getConnection_acquired_fields (bumpTotal s) cid s' hacq
  have hra : s'.retryAttempts = 3 := by
    rw [hfields.2.2.1]
    exact hretry
  have hres : (executeQueryWithRetry (executeQuery attemptOk (queryText arg))
      s'.retryAttempts s'.retryDelay).1
      = .ok (simulatedResult (queryText arg)) := by
    rw [hra]
    unfold executeQueryWithRetry
    refine retryLoop_fail_then_ok _ s'.retryDelay 2 3 1 none _ (by omega) ?_ ?_
    · intro k hk1 hk2
      interval_cases k
      · exact ⟨DBError.queryFailed, by simp [executeQuery, h1]⟩
      · exact ⟨DBError.queryFailed, by simp [executeQuery, h2]⟩
    · show executeQuery attemptOk (queryText arg) 3 = _
      simp [executeQuery, h3]
  rw [hq, hres]
  refine ⟨rfl, ?_, ?_, ?_⟩
  · rw [(releaseConnection_fields cid (bumpSuccess s')).2.1]
    show s'.stats.totalQueries = s.stats.totalQueries + 1
    rw [hfields.2.2.2.2.1]
    rfl
  · rw [(releaseConnection_fields cid (bumpSuccess s')).2.1]
    show s'.stats.successfulQueries + 1 = s.stats.successfulQueries + 1
    rw [hfields.2.2.2.2.2.1]
    rfl
  · rw [(releaseConnection_fields cid (bumpSuccess s')).2.1]
    show s'.stats.failedQueries = s.stats.failedQueries
    rw [hfields.2.2.2.2.2.2]
    rfl

/-- C4 witness: the amended statistics theorem at the concrete
one-connection pool with the fail-twice-then-succeed oracle. -/
theorem C4_stats_once_per_call_witness :
    (query (QueryArg.strArg "Q") true failTwice c4State).1
      = QueryOutcome.ok (simulatedResult "Q") ∧
    (query (QueryArg.strArg "Q") true failTwice c4State).2.stats.totalQueries = 1 ∧
    (query (QueryArg.strArg "Q") true failTwice c4State).2.stats.successfulQueries = 1 ∧
    (query (QueryArg.strArg "Q") true failTwice c4State).2.stats.failedQueries = 0 := by
  exact C4_stats_once_per_call c4State (QueryArg.strArg "Q") true failTwice 0
    { bumpTotal c4State with
      connectionPool := setConn c4State.connectionPool 0
        (fun c => { c with inUse := true, lastUsed := c4State.clock }),
      clock := c4State.clock + 1 }
    rfl (by decide) (by decide) rfl (by decide) (by decide) (by decide)

/-- C5: the retry loop runs up to `maxAttempts` attempts on the same
acquired resource (it never re-acquires — the pool is exactly as large
after the call as after the single acquisition), sleeps
`baseDelayMs * attemptNumber` before each retry and not after the final
attempt, and, once attempts are exhausted, fails with the error observed
on the last attempt. -/
theorem C5_retry_exhaustion {E A : Type} (oc : Nat → Except E A)
    (errs : Nat → E) (n d : Nat) (s : DBState) (arg : QueryArg)
    (connectOk : Bool) (attemptOk : Nat → Bool) (cid : Nat) (s' : DBState) :
    (1 ≤ n → (∀ k, 1 ≤ k → k ≤ n → oc k = .error (errs k)) →
      executeQueryWithRetry oc n d
        = (.error (some (errs n)),
           (List.range (n - 1)).map (fun i => d * (i + 1)))) ∧
    (s.connectionState = .connected → validQueryArg arg = true →
      getConnection (bumpTotal s) = .acquired cid s' →
      (∀ k, attemptOk k = false) → 1 ≤ s'.retryAttempts →
      (query arg connectOk attemptOk s).1 = QueryOutcome.err DBError.queryFailed ∧
      (query arg connectOk attemptOk s).2.connectionPool.length
        = s'.connectionPool.length) := by
  constructor
  · intro hn hall
    exact executeQueryWithRetry_all_fail oc errs n d hn hall
  · intro hconn harg hacq hfk hra
    have hq := query_connected_reduce s arg connectOk attemptOk cid s' hconn harg hacq
    have hres : (executeQueryWithRetry (executeQuery attemptOk (queryText arg))
        s'.retryAttempts s'.retryDelay).1
        = .error (some DBError.queryFailed) := by
      rw [executeQueryWithRetry_all_fail (executeQuery attemptOk (queryText arg))
        (fun _ => DBError.queryFailed) s'.retryAttempts s'.retryDelay hra
        (fun k _ _ => by simp [executeQuery, hfk k])]
    rw [hq, hres]
    exact ⟨rfl, (releaseConnection_fields cid (bumpFailed s')).2.2.2⟩

/-- C5 witness: the exhaustion theorem at a concrete oracle failing all of
3 attempts with delays 10 and 20 (base 10), and at the concrete pool with
an always-failing operation. -/
theorem C5_retry_exhaustion_witness :
    executeQueryWithRetry (fun _ => (Except.error (7 : Nat) : Except Nat Nat)) 3 10
      = (Except.error (some 7), [10, 20]) ∧
    (query (QueryArg.strArg "INSERT") true (fun _ => false) c7State).1
      = QueryOutcome.err DBError.queryFailed ∧
    (query (QueryArg.strArg "INSERT") true (fun _ => false) c7State).2.connectionPool.length
      = 1 := by
  have h := @C5_retry_exhaustion Nat Nat (fun _ => Except.error 7) (fun _ => 7) 3 10
    c7State (QueryArg.strArg "INSERT") true (fun _ => false) 2
    { bumpTotal c7State with
      connectionPool := setConn c7State.connectionPool 2
        (fun c => { c with inUse := true, lastUsed := c7State.clock }),
      clock := c7State.clock + 1 }
  have h1 := h.1 (by omega) (fun k _ _ => rfl)
  have h2 := h.2 rfl (by decide) (by decide) (fun k => rfl) (by decide)
  exact ⟨by rw [h1]; rfl, h2.1, h2.2⟩

/-- C2 counterexample: after `connect()` then `disconnect()` (the closed
pool), neither `query` nor `transaction` fails with a PoolClosed error —
no such error exists in the code.  `query` silently reconnects and
succeeds, leaving the manager connected again; `transaction` skips the
state check entirely, creates a fresh connection and succeeds. -/
theorem C2_counterexample :
    c2Closed.connectionState = ConnState.disconnected ∧
    c2Closed.connectionPool = [] ∧
    (query (QueryArg.strArg "SELECT 1") true (fun _ => true) c2Closed).1
      = QueryOutcome.ok (simulatedResult "SELECT 1") ∧
    (query (QueryArg.strArg "SELECT 1") true (fun _ => true) c2Closed).2.connectionState
      = ConnState.connected ∧
    (transaction (fun _ => Except.ok (7 : Nat)) c2Closed).1 = QueryOutcome.ok 7 := by
  decide

/-- C2 amended: operations invoked after `disconnect()` do not fail with a
PoolClosed error (none exists).  `query` notices the non-connected state
and re-runs `connect()`: with a succeeding simulation it re-initializes
the pool, proceeds, returns the operation's result and leaves the manager
connected; `transaction` performs no state check at all and simply creates
a fresh connection, returning the callback's value. -/
theorem C2_operations_reconnect {α : Type} (s : DBState) (arg : QueryArg)
    (hstate : s.connectionState = ConnState.disconnected)
    (hpool : s.connectionPool = [])
    (hmax : 0 < s.maxConnections)
    (hra : 1 ≤ s.retryAttempts)
    (harg : validQueryArg arg = true) :
    (query arg true (fun _ => true) s).1
      = QueryOutcome.ok (simulatedResult (queryText arg)) ∧
    (query arg true (fun _ => true) s).2.connectionState = ConnState.connected ∧
    (∀ (body : Nat → Except DBError α) (v : α), body 1 = Except.ok v →
      (transaction body s).1 = QueryOutcome.ok v) := by
  have hcon := connect_true_disconnected (bumpTotal s) hstate
  have hmin : 1 ≤ min 3
      ({ bumpTotal s with connectionState := ConnState.connecting } : DBState).maxConnections := by
    show 1 ≤ min 3 s.maxConnections
    omega
  obtain ⟨t, ht⟩ := addFresh_head
    (min 3 ({ bumpTotal s with connectionState := ConnState.connecting } : DBState).maxConnections)
    { bumpTotal s with connectionState := ConnState.connecting } hmin
  have hscpool : ({ bumpTotal s with
      connectionState := ConnState.connecting } : DBState).connectionPool = [] := hpool
  rw [hscpool, List.nil_append] at ht
  have hfa2 : findAvailable
      ({ initPool { bumpTotal s with connectionState := ConnState.connecting } with
         connectionState := ConnState.connected } : DBState).connectionPool
      = some s.nextId := by
    show findAvailable (addFreshConnections
      (min 3 ({ bumpTotal s with connectionState := ConnState.connecting } : DBState).maxConnections)
      { bumpTotal s with connectionState := ConnState.connecting }).connectionPool
      = some s.nextId
    rw [ht]
    simp [findAvailable, bumpTotal]
  obtain ⟨s3, hacq3, hs3ra, hs3state⟩ :
      ∃ s3, getConnection
          { initPool { bumpTotal s with connectionState := ConnState.connecting } with
            connectionState := ConnState.connected } = .acquired s.nextId s3 ∧
        s3.retryAttempts = s.retryAttempts ∧
        s3.connectionState = ConnState.connected := by
    refine ⟨_, getConnection_found _ s.nextId hfa2, ?_, rfl⟩
    show (addFreshConnections
      (min 3 ({ bumpTotal s with connectionState := ConnState.connecting } : DBState).maxConnections)
      { bumpTotal s with connectionState := ConnState.connecting }).retryAttempts
      = s.retryAttempts
    rw [(addFresh_fields _ _).2.2.1]
    rfl
  have hq := query_reconnect_reduce s arg (fun _ => true) s.nextId _ s3
    hstate harg hcon hacq3
  have hfirst : (executeQueryWithRetry (executeQuery (fun _ => true) (queryText arg))
      s3.retryAttempts s3.retryDelay).1
      = .ok (simulatedResult (queryText arg)) := by
    refine executeQueryWithRetry_first_ok _ _ _ _ ?_ rfl
    rw [hs3ra]
    exact hra
  refine ⟨?_, ?_, ?_⟩
  · rw [hq, hfirst]
  · rw [hq, hfirst]
    show (releaseConnection s.nextId (bumpSuccess s3)).connectionState = ConnState.connected
    rw [(releaseConnection_fields _ _).1]
    exact hs3state
  · intro body v hv
    have hfa0 : findAvailable s.connectionPool = none := by
      rw [hpool]
      rfl
    have hlt0 : s.connectionPool.length < s.maxConnections := by
      rw [hpool]
      exact hmax
    unfold transaction
    rw [getConnection_create s hfa0 hlt0]
    simp only [hv]

/-- C2 witness: the reconnection theorem at the concrete closed pool
obtained by connecting then disconnecting a fresh manager. -/
theorem C2_operations_reconnect_witness :
    (query (QueryArg.strArg "UPDATE t") true (fun _ => true) c2Closed).1
      = QueryOutcome.ok (simulatedResult "UPDATE t") ∧
    (query (QueryArg.strArg "UPDATE t") true (fun _ => true) c2Closed).2.connectionState
      = ConnState.connected ∧
    (transaction (fun _ => Except.ok (11 : Nat)) c2Closed).1 = QueryOutcome.ok 11 := by
  have h := @C2_operations_reconnect Nat c2Closed (QueryArg.strArg "UPDATE t")
    (by decide) (by decide) (by decide) (by decide) (by decide)
  exact ⟨h.1, h.2.1, h.2.2 (fun _ => Except.ok 11) 11 rfl⟩

/-- C10 witness: the validation theorem at a freshly constructed manager —
all three bad argument shapes are rejected with the state returned
untouched. -/
theorem C10_validation_before_state_change_witness :
    query QueryArg.missing true (fun _ => true) (newDBState 10 3 1)
      = (QueryOutcome.err DBError.invalidQuery, newDBState 10 3 1) ∧
    query (QueryArg.strArg "") true (fun _ => true) (newDBState 10 3 1)
      = (QueryOutcome.err DBError.invalidQuery, newDBState 10 3 1) ∧
    query QueryArg.nonString true (fun _ => true) (newDBState 10 3 1)
      = (QueryOutcome.err DBError.invalidQuery, newDBState 10 3 1) := by
  have h := C10_validation_before_state_change (newDBState 10 3 1) true (fun _ => true)
  exact ⟨h.1, h.2.2.2 (QueryArg.strArg "") (by decide), h.2.2.1⟩
